import Mathlib

/-!
Verification of the CPU-throttling measurement script
(src/k8s/cpu-throttling/script.py) against its specification.

Strings are modelled as lists of characters. Python arbitrary-precision
integers are modelled as Int. Python float arithmetic on the counter
ratios is idealized as exact rational arithmetic; every concrete value
appearing in the claims below is exact in both Rat and IEEE double.
-/

/-- Lines of text, as produced by str.splitlines, are lists of characters. -/
abbrev Line := List Char

/-- Characters removed by Python str.strip with no argument. -/
def pyWS (c : Char) : Bool :=
  c = ' ' || c = '\t' || c = '\n' || c = '\r' || c = '\x0b' || c = '\x0c'

/-- Python str.strip: drop leading and trailing whitespace. -/
def pyStrip (l : List Char) : List Char :=
  ((l.dropWhile pyWS).reverse.dropWhile pyWS).reverse

/-- Accumulate the decimal digits of a Python int literal after its first
digit; an underscore is allowed only between two digits. -/
def pyDigitsGo (acc : Nat) : List Char → Option Nat
  | [] => some acc
  | '_' :: c :: rest =>
      if c.isDigit then pyDigitsGo (acc * 10 + (c.toNat - 48)) rest else none
  | c :: rest =>
      if c.isDigit then pyDigitsGo (acc * 10 + (c.toNat - 48)) rest else none

/-- Digits of a Python int literal: nonempty, starting with a digit. -/
def pyDigitsTop : List Char → Option Nat
  | [] => none
  | c :: rest => if c.isDigit then pyDigitsGo (c.toNat - 48) rest else none

/-- Python int(string): strip surrounding whitespace, optional sign, then
decimal digits (underscores permitted between digits). -/
def pyInt (l : List Char) : Option Int :=
  match pyStrip l with
  | '+' :: rest => (pyDigitsTop rest).map (fun n => (n : Int))
  | '-' :: rest => (pyDigitsTop rest).map (fun n => -(n : Int))
  | s => (pyDigitsTop s).map (fun n => (n : Int))

/-- The stats dictionary built by get_cpu_stats (script.py lines 162-168):
counters nr_periods, nr_throttled, throttled_time plus the resolved
cgroup path. -/
structure CpuStats where
  nr_periods : Int
  nr_throttled : Int
  throttled_time : Int
  cgroup_path_used : List Char
deriving DecidableEq, Repr

/-- Failures raised by the stats-parsing section of get_cpu_stats: an
invalid integer value for a recognized key (script.py line 192), or no
recognized statistic present at all (line 195). -/
inductive ParseErr where
  | invalidValue (key value : List Char)
  | noStats
deriving DecidableEq, Repr

/-- Python str.split(sep, 1) restricted to the case where sep occurs: the
part before the first occurrence and the part after it. -/
def splitFirst (sep : Char) : List Char → List Char × List Char
  | [] => ([], [])
  | c :: rest =>
      if c = sep then ([], rest)
      else
        let p := splitFirst sep rest
        (c :: p.1, p.2)

/-- The literal key nr_periods. -/
def npKey : List Char := "nr_periods".toList

/-- The literal key nr_throttled. -/
def ntKey : List Char := "nr_throttled".toList

/-- The literal key throttled_usec. -/
def tuKey : List Char := "throttled_usec".toList

/-- Key/value extraction for one line of cpu.stat output (script.py lines
172-180): a line containing neither a colon nor a space is skipped;
otherwise the line is split at the first space when one is present, else
at the first colon, and both parts are stripped. -/
def lineKV (line : Line) : Option (List Char × List Char) :=
  if ':' ∉ line ∧ ' ' ∉ line then none
  else
    let p := if ' ' ∈ line then splitFirst ' ' line else splitFirst ':' line
    some (pyStrip p.1, pyStrip p.2)

/-- Handling of one split line (script.py lines 182-192). An unrecognized
key leaves the state unchanged; a recognized key whose value is not an
integer raises the invalid-value error. The Bool component is the
found_any_stat flag. -/
def applyKV (st : CpuStats × Bool) (k v : List Char) : Except ParseErr (CpuStats × Bool) :=
  if k = npKey then
    match pyInt v with
    | some n => Except.ok ({ st.1 with nr_periods := n }, true)
    | none => Except.error (ParseErr.invalidValue k v)
  else if k = ntKey then
    match pyInt v with
    | some n => Except.ok ({ st.1 with nr_throttled := n }, true)
    | none => Except.error (ParseErr.invalidValue k v)
  else if k = tuKey then
    match pyInt v with
    | some n => Except.ok ({ st.1 with throttled_time := n }, true)
    | none => Except.error (ParseErr.invalidValue k v)
  else
    Except.ok st

/-- Processing of one raw line of the probe output. -/
def processLine (st : CpuStats × Bool) (line : Line) : Except ParseErr (CpuStats × Bool) :=
  match lineKV line with
  | none => Except.ok st
  | some kv => applyKV st kv.1 kv.2

/-- The parsing loop over all output lines, stopping at the first error. -/
def parseLines (st : CpuStats × Bool) : List Line → Except ParseErr (CpuStats × Bool)
  | [] => Except.ok st
  | l :: rest =>
    match processLine st l with
    | Except.ok st2 => parseLines st2 rest
    | Except.error e => Except.error e

/-- The stats-parsing section of get_cpu_stats (script.py lines 162-195):
fold over the output lines starting from all-zero counters, then fail
when no recognized statistic was present. -/
def parse_cpu_stats (path : List Char) (lines : List Line) : Except ParseErr CpuStats :=
  match parseLines ({ nr_periods := 0, nr_throttled := 0, throttled_time := 0,
                      cgroup_path_used := path }, false) lines with
  | Except.error e => Except.error e
  | Except.ok st => if st.2 then Except.ok st.1 else Except.error ParseErr.noStats

/-- The per-pod throttling computation (script.py lines 291-307). In
differential mode (wait truthy) the counter deltas are used, otherwise
the absolute counters of the single snapshot. The Bool is true exactly
when the zero-period branch was taken, i.e. when the code logs the
message that sets throttling to zero. Rational arithmetic stands in for
Python float division. -/
def computeThrottling (wait : Bool) (initial final : CpuStats) : Rat × Bool :=
  if wait then
    let periods_delta := final.nr_periods - initial.nr_periods
    let throttled_delta := final.nr_throttled - initial.nr_throttled
    if periods_delta > 0 then
      (((throttled_delta : Rat) / (periods_delta : Rat)) * 100, false)
    else (0, true)
  else
    if initial.nr_periods > 0 then
      (((initial.nr_throttled : Rat) / (initial.nr_periods : Rat)) * 100, false)
    else (0, true)

/-- The per-pod entry of the final report (script.py lines 309-322). -/
structure PodResult where
  pod_name : List Char
  throttling_percentage : Rat
  throttled_rate : Rat
  nr_periods : Int
  nr_throttled : Int
  cgroup_path : List Char
  deltas : Option (Int × Int)
deriving DecidableEq, Repr

/-- The pod_result dictionary (script.py lines 309-322): throttled_rate
is assigned the very percentage just computed; the counters shown are the
final snapshot's in differential mode and the single snapshot's
otherwise; the delta fields are present only in differential mode. -/
def podResult (wait : Bool) (name : List Char) (initial final : CpuStats) : PodResult :=
  let p := computeThrottling wait initial final
  let stats_to_use := if wait then final else initial
  { pod_name := name
    throttling_percentage := p.1
    throttled_rate := p.1
    nr_periods := stats_to_use.nr_periods
    nr_throttled := stats_to_use.nr_throttled
    cgroup_path := stats_to_use.cgroup_path_used
    deltas :=
      if wait then
        some (final.nr_periods - initial.nr_periods,
              final.nr_throttled - initial.nr_throttled)
      else none }

/-- Outcome of one get_container_cpu_stats call for a pod: the stats
dictionary, or the message of the exception the call raised. -/
abbrev StatOutcome := Except (List Char) CpuStats

/-- One discovered pod: its name and the outcomes of its first and second
stats reads. The second outcome is consulted only in differential mode;
in instantaneous mode the code reuses the first snapshot. -/
abbrev PodEntry := List Char × StatOutcome × StatOutcome

/-- The dictionary returned by get_throttling_percentage, reduced to its
status, message and pod list (the timestamp field carries wall-clock time
and is not modelled). -/
inductive FleetResult where
  | success (message : List Char) (pods : List PodResult)
  | error (msg : List Char)
deriving DecidableEq, Repr

/-- The per-pod loop of get_throttling_percentage (script.py lines
276-341): on the first failing stats read the whole run returns the error
dictionary at once (lines 329-334); otherwise the pod results accumulate
in discovery order. -/
def fleetLoop (wait : Bool) : List PodEntry → List PodResult → FleetResult
  | [], acc => FleetResult.success ("CPU throttling analysis completed".toList) acc
  | e :: rest, acc =>
    match e.2.1 with
    | Except.error msg =>
        FleetResult.error
          ("Failed to get CPU stats for pod ".toList ++ e.1 ++ ": ".toList ++ msg)
    | Except.ok initial =>
      if wait then
        match e.2.2 with
        | Except.error msg =>
            FleetResult.error
              ("Failed to get CPU stats for pod ".toList ++ e.1 ++ ": ".toList ++ msg)
        | Except.ok final => fleetLoop wait rest (acc ++ [podResult true e.1 initial final])
      else fleetLoop wait rest (acc ++ [podResult false e.1 initial initial])

/-- The fleet sweep of get_throttling_percentage after pod discovery
(script.py lines 265-341): an empty pod list yields an early success with
an explanatory message, otherwise the per-pod loop runs. -/
def fleetRun (wait : Bool) (pods : List PodEntry) : FleetResult :=
  if pods.isEmpty then FleetResult.success ("No pods found matching the criteria".toList) []
  else fleetLoop wait pods []

/-- The failure the per-pod loop hits on an entry, when it hits one: the
first snapshot's error, or in differential mode the second snapshot's
error after a successful first read; none when the loop gets through the
entry. Mirrors the order in which the loop consults the outcomes. -/
def entryFailMsg (wait : Bool) (e : PodEntry) : Option (List Char) :=
  match e.2.1 with
  | Except.error m => some m
  | Except.ok _ =>
    if wait then
      match e.2.2 with
      | Except.error m => some m
      | Except.ok _ => none
    else none

/-- The instantaneous-mode pipeline for one pod: parse the probe output,
then build the pod result from the single snapshot (the composition of
get_cpu_stats parsing with the non-wait branch of the per-pod loop). -/
def runInstantaneous (name path : List Char) (lines : List Line) : Except ParseErr PodResult :=
  (parse_cpu_stats path lines).map (fun s => podResult false name s s)

/-- Python `x or os.getenv(E)` as used at script.py lines 228-230: a
truthy flag value wins, an empty-string or absent flag falls back to the
environment variable. -/
def orEnv (flag envVal : Option (List Char)) : Option (List Char) :=
  match flag with
  | some f => if f = [] then envVal else some f
  | none => envVal

/-- Resolution of the namespace parameter (script.py line 228). -/
def resolveNamespace (flag envVal : Option (List Char)) : Option (List Char) :=
  orEnv flag envVal

/-- Resolution of the container-name parameter (script.py line 229). -/
def resolveContainerName (flag envVal : Option (List Char)) : Option (List Char) :=
  orEnv flag envVal

/-- Resolution of the label-selector parameter (script.py line 230). -/
def resolveLabelSelector (flag envVal : Option (List Char)) : Option (List Char) :=
  orEnv flag envVal

/-- Resolution of the wait duration: main passes args.wait_seconds
straight into get_throttling_percentage (script.py lines 372-373, 395)
and the WAIT_SECONDS environment variable is never read anywhere in the
script, so the resolved value is the flag alone. -/
def resolveWaitSeconds (flag : Option Rat) (_envVal : Option (List Char)) : Option Rat :=
  flag

/-- Resolution of the cgroup base-path hint: main passes args.cgroup_path
directly (script.py lines 366-367, 393) and only pops, never reads, the
CGROUP_PATH environment variable (lines 384-386). -/
def resolveCgroupPath (flag : Option (List Char)) (_envVal : Option (List Char)) :
    Option (List Char) :=
  flag

/-- Resolution of the complete cgroup-path hint: main passes
args.complete_cgroup_path directly (script.py lines 368-369, 394) and
only pops, never reads, the COMPLETE_CGROUP_PATH environment variable
(lines 384-386). -/
def resolveCompleteCgroupPath (flag : Option (List Char)) (_envVal : Option (List Char)) :
    Option (List Char) :=
  flag

/-- A single-quote character. -/
def squote : Char := Char.ofNat 39

/-- The probe command built by get_cpu_stats (script.py lines 124-131).
The two path-hint parameters of get_cpu_stats are accepted but never used
in the command, which tests only /sys/fs/cgroup/cpu.stat. -/
def probeCmd (_cgroup_base_path _complete_cgroup_path : Option (List Char)) : List Char :=
  "sh -c ".toList ++ [squote] ++
  ("if [ -f /sys/fs/cgroup/cpu.stat ]; then " ++
   "echo \"Found: /sys/fs/cgroup/cpu.stat\"; " ++
   "cat /sys/fs/cgroup/cpu.stat; " ++
   "exit 0; " ++
   "else echo \"No cpu.stat found\"; exit 1; fi").toList ++ [squote]

/-- Substring occurrence on character lists. -/
def isContained (needle : List Char) : List Char → Bool
  | [] => needle.isEmpty
  | c :: rest => needle.isPrefixOf (c :: rest) || isContained needle rest

/-- The key of a line when that key is one of the three recognized
counters, and none otherwise. -/
def lineRecKey (line : Line) : Option (List Char) :=
  match lineKV line with
  | none => none
  | some kv => if kv.1 = npKey ∨ kv.1 = ntKey ∨ kv.1 = tuKey then some kv.1 else none

/-- A line is benign when any recognized key it carries has a value that
parses as an integer, so that processing it cannot raise. -/
def lineOk (line : Line) : Bool :=
  match lineKV line with
  | none => true
  | some kv =>
    if kv.1 = npKey ∨ kv.1 = ntKey ∨ kv.1 = tuKey then (pyInt kv.2).isSome else true

/-- The effect of one benign line on the parser state. -/
def pureStep (st : CpuStats × Bool) (line : Line) : CpuStats × Bool :=
  match lineKV line with
  | none => st
  | some kv =>
    match pyInt kv.2 with
    | none => st
    | some n =>
      if kv.1 = npKey then ({ st.1 with nr_periods := n }, true)
      else if kv.1 = ntKey then ({ st.1 with nr_throttled := n }, true)
      else if kv.1 = tuKey then ({ st.1 with throttled_time := n }, true)
      else st

/-- Replace the first colon of a line by a space. -/
def colonToSpace : Line → Line
  | [] => []
  | c :: rest => if c = ':' then ' ' :: rest else c :: colonToSpace rest

instance {ε α : Type} [DecidableEq ε] [DecidableEq α] : DecidableEq (Except ε α) := fun a b =>
  match a, b with
  | Except.ok x, Except.ok y =>
    if h : x = y then Decidable.isTrue (by rw [h])
    else Decidable.isFalse (fun hh => h (Except.ok.inj hh))
  | Except.error x, Except.error y =>
    if h : x = y then Decidable.isTrue (by rw [h])
    else Decidable.isFalse (fun hh => h (Except.error.inj hh))
  | Except.ok _, Except.error _ => Decidable.isFalse (fun hh => Except.noConfusion hh)
  | Except.error _, Except.ok _ => Decidable.isFalse (fun hh => Except.noConfusion hh)

/-- The raw probe output of the round-trip scenario in the specification:
the provenance sentinel followed by the three counters. -/
def c1lines : List Line :=
  ["Found: /sys/fs/cgroup/cpu.stat".toList, "nr_periods 1000".toList,
   "nr_throttled 50".toList, "throttled_usec 2500000".toList]

/-- Probe output carrying a nr_periods line and a legacy throttled_time
line. -/
def c5lines : List Line :=
  ["Found: /sys/fs/cgroup/cpu.stat".toList, "nr_periods 10".toList,
   "throttled_time 999".toList]

/-- An all-zero stats dictionary. -/
def zeroStats : CpuStats :=
  { nr_periods := 0, nr_throttled := 0, throttled_time := 0, cgroup_path_used := [] }

/-- The first snapshot of the counter-regression scenario. -/
def c2initial : CpuStats :=
  { nr_periods := 100, nr_throttled := 10, throttled_time := 0, cgroup_path_used := [] }

/-- The second snapshot of the counter-regression scenario: nr_throttled
went backward from 10 to 5. -/
def c2final : CpuStats :=
  { nr_periods := 150, nr_throttled := 5, throttled_time := 0, cgroup_path_used := [] }

/-- The resolved path of the round-trip scenario. -/
def c1pth : List Char := "/sys/fs/cgroup/cpu.stat".toList

/-- The counters parsed from the round-trip raw block. -/
def c1stats : CpuStats :=
  { nr_periods := 1000, nr_throttled := 50, throttled_time := 2500000,
    cgroup_path_used := c1pth }

theorem c1_parse : parse_cpu_stats c1pth c1lines = Except.ok c1stats := by decide

theorem c1_run : runInstantaneous "p".toList c1pth c1lines =
    Except.ok (podResult false "p".toList c1stats c1stats) := by
  unfold runInstantaneous
  rw [c1_parse]
  rfl

theorem c1_rate : (podResult false "p".toList c1stats c1stats).throttled_rate = 5 := by
  norm_num [podResult, computeThrottling, c1stats]

theorem c1_pct : (podResult false "p".toList c1stats c1stats).throttling_percentage = 5 := by
  norm_num [podResult, computeThrottling, c1stats]

/-- Claim C1 counterexample: on the round-trip input the produced
throttled_rate field is 5, not the claimed 2500000 / (1000 * 100000000) =
1 / 40000; the code never computes a throttled-time based rate. -/
theorem C1_counterexample :
    (runInstantaneous "p".toList c1pth c1lines).map
        PodResult.throttled_rate = Except.ok 5 ∧
    (runInstantaneous "p".toList c1pth c1lines).map
        PodResult.throttled_rate ≠ Except.ok ((1 : Rat) / 40000) := by
  rw [c1_run]
  constructor
  · simp only [Except.map]
    rw [c1_rate]
  · simp only [Except.map, ne_eq, Except.ok.injEq]
    rw [c1_rate]
    norm_num

/-- Claim C1 as amended: parsing the raw block and computing in
instantaneous mode yields percentage 5 and a throttled_rate field that
carries the same 5 (it duplicates the percentage); the throttled-time
counter 2500000 is parsed but takes no part in either output value. -/
theorem C1_round_trip :
    (runInstantaneous "p".toList c1pth c1lines).map
        (fun r => (r.throttling_percentage, r.throttled_rate)) = Except.ok (5, 5) ∧
    (parse_cpu_stats c1pth c1lines).map CpuStats.throttled_time = Except.ok 2500000 := by
  constructor
  · rw [c1_run]
    simp only [Except.map]
    rw [c1_pct, c1_rate]
  · rw [c1_parse]
    rfl

/-- Claim C2 counterexample: with nr_throttled regressing from 10 to 5
while periods advance by 50, the computation raises nothing and reports
the numeric percentage (-5) / 50 * 100 = -10 derived from the negative
delta. -/
theorem C2_counterexample :
    (podResult true "p".toList c2initial c2final).throttling_percentage = -10 ∧
    (podResult true "p".toList c2initial c2final).deltas = some (50, -5) := by
  constructor
  · norm_num [podResult, computeThrottling, c2initial, c2final]
  · decide

/-- Claim C2 as amended: no counter-regression error exists. Whenever the
periods delta is positive the (possibly negative) percentage
throttledDelta / periodsDelta * 100 is reported as a number, and whenever
the periods delta is zero or negative the percentage is reported as 0. -/
theorem C2_no_regression_error : ∀ (nm : List Char) (i f : CpuStats),
    (f.nr_periods - i.nr_periods > 0 →
      (podResult true nm i f).throttling_percentage =
        ((f.nr_throttled - i.nr_throttled : Int) : Rat) /
          ((f.nr_periods - i.nr_periods : Int) : Rat) * 100) ∧
    (f.nr_periods - i.nr_periods ≤ 0 →
      (podResult true nm i f).throttling_percentage = 0) := by
  intro nm i f
  constructor
  · intro h
    simp only [podResult, computeThrottling, if_true, if_pos h]
  · intro h
    simp only [podResult, computeThrottling, if_true, if_neg (not_lt.mpr h)]

/-- Witness for C2_no_regression_error at the regression snapshots. -/
theorem C2_no_regression_error_witness :
    (podResult true "p".toList c2initial c2final).throttling_percentage =
      ((c2final.nr_throttled - c2initial.nr_throttled : Int) : Rat) /
        ((c2final.nr_periods - c2initial.nr_periods : Int) : Rat) * 100 :=
  (C2_no_regression_error "p".toList c2initial c2final).1 (by decide)

/-- Claim C3 counterexample: a single target whose stats read fails makes
the whole run return the error dictionary; the run status is error, not
success, and no zero-valued result is recorded. -/
theorem C3_counterexample :
    fleetRun false [("p1".toList, Except.error "boom".toList, Except.error [])] =
      FleetResult.error ("Failed to get CPU stats for pod p1: boom".toList) := by
  decide

theorem fleetLoop_error_of_fail (wait : Bool) :
    ∀ (pre : List PodEntry) (e : PodEntry) (m : List Char) (rest : List PodEntry)
      (acc : List PodResult),
    (∀ p ∈ pre, entryFailMsg wait p = none) →
    entryFailMsg wait e = some m →
    fleetLoop wait (pre ++ e :: rest) acc =
      FleetResult.error ("Failed to get CPU stats for pod ".toList ++ e.1 ++ ": ".toList ++ m) := by
  intro pre
  induction pre with
  | nil =>
    intro e m rest acc _ hfail
    cases h1 : e.2.1 with
    | error m1 =>
      have hm : m1 = m := by
        have h3 := hfail
        simp [entryFailMsg, h1] at h3
        exact h3
      rw [List.nil_append, fleetLoop, h1, hm]
    | ok i =>
      cases wait with
      | false => simp [entryFailMsg, h1] at hfail
      | true =>
        cases h2 : e.2.2 with
        | error m2 =>
          have hm : m2 = m := by
            have h3 := hfail
            simp [entryFailMsg, h1, h2] at h3
            exact h3
          rw [List.nil_append, fleetLoop, h1]
          simp [h2, hm]
        | ok f => simp [entryFailMsg, h1, h2] at hfail
  | cons p pre' ih =>
    intro e m rest acc hpre hfail
    have hp : entryFailMsg wait p = none := hpre p (List.mem_cons_self p pre')
    have hpre' : ∀ q ∈ pre', entryFailMsg wait q = none :=
      fun q hq => hpre q (List.mem_cons_of_mem p hq)
    cases h1 : p.2.1 with
    | error m1 => simp [entryFailMsg, h1] at hp
    | ok i =>
      cases wait with
      | false =>
        rw [List.cons_append, fleetLoop, h1]
        simp only [Bool.false_eq_true, if_false]
        exact ih e m rest _ hpre' hfail
      | true =>
        cases h2 : p.2.2 with
        | error m2 => simp [entryFailMsg, h1, h2] at hp
        | ok f =>
          rw [List.cons_append, fleetLoop, h1]
          simp only [if_true]
          rw [h2]
          exact ih e m rest _ hpre' hfail

/-- Claim C3 as amended: there is no skip-and-zero policy. In either
mode, the first target whose stats read fails — at any position in the
fleet, on either snapshot — aborts the entire run with an error report
naming that target: the results already accumulated for the preceding
targets are discarded, the remaining targets are never consulted, and no
zero-valued result is recorded. -/
theorem C3_failure_aborts_run : ∀ (wait : Bool) (pre : List PodEntry) (e : PodEntry)
    (m : List Char) (rest : List PodEntry),
    (∀ p ∈ pre, entryFailMsg wait p = none) →
    entryFailMsg wait e = some m →
    fleetRun wait (pre ++ e :: rest) =
      FleetResult.error ("Failed to get CPU stats for pod ".toList ++ e.1 ++ ": ".toList ++ m) := by
  intro wait pre e m rest hpre hfail
  have hne : (pre ++ e :: rest).isEmpty = false := by
    cases pre <;> rfl
  unfold fleetRun
  rw [hne]
  simp only [Bool.false_eq_true, if_false]
  exact fleetLoop_error_of_fail wait pre e m rest [] hpre hfail

/-- Witness for C3_failure_aborts_run: in differential mode a fleet of
three pods whose middle pod fails on its second snapshot yields the
error report for that pod, with the first pod's result discarded and the
third pod never consulted. -/
theorem C3_failure_aborts_run_witness :
    fleetRun true
      [("p0".toList, Except.ok zeroStats, Except.ok zeroStats),
       ("p1".toList, Except.ok zeroStats, Except.error "boom".toList),
       ("p2".toList, Except.ok zeroStats, Except.ok zeroStats)] =
      FleetResult.error ("Failed to get CPU stats for pod p1: boom".toList) := by
  have h := C3_failure_aborts_run true
      [("p0".toList, Except.ok zeroStats, Except.ok zeroStats)]
      ("p1".toList, Except.ok zeroStats, Except.error "boom".toList)
      "boom".toList
      [("p2".toList, Except.ok zeroStats, Except.ok zeroStats)]
      (by decide) (by decide)
  exact h.trans (by decide)

/-- Claim C4 counterexample: with a BasePath hint of /x the probe command
does not mention /x/cpu.stat, nor the v1 fallback path; it tests only the
fixed v2 path, and the hint leaves the command unchanged. -/
theorem C4_counterexample :
    probeCmd (some "/x".toList) none = probeCmd none none ∧
    isContained "/x/cpu.stat".toList (probeCmd (some "/x".toList) none) = false ∧
    isContained "/sys/fs/cgroup/cpu/cpu.stat".toList (probeCmd (some "/x".toList) none) = false ∧
    isContained "/sys/fs/cgroup/cpu.stat".toList (probeCmd (some "/x".toList) none) = true := by
  refine ⟨rfl, by decide, by decide, by decide⟩

/-- Claim C4 as amended: for every hint configuration the probe command
is one and the same: it consults only /sys/fs/cgroup/cpu.stat, never the
cgroup v1 fallback /sys/fs/cgroup/cpu/cpu.stat and never a hinted
location. -/
theorem C4_probe_fixed : ∀ (b e : Option (List Char)),
    probeCmd b e = probeCmd none none ∧
    isContained "/sys/fs/cgroup/cpu.stat".toList (probeCmd b e) = true ∧
    isContained "/sys/fs/cgroup/cpu/cpu.stat".toList (probeCmd b e) = false := by
  intro b e
  have h : probeCmd b e = probeCmd none none := rfl
  refine ⟨rfl, ?_, ?_⟩ <;> rw [h] <;> decide

/-- Claim C8 counterexample: with no flag given but the corresponding
environment variable set, the resolved wait duration and cgroup base path
are still absent; these parameters have no environment fallback. -/
theorem C8_counterexample :
    resolveWaitSeconds none (some "5".toList) = none ∧
    resolveCgroupPath none (some "/sys/fs/cgroup".toList) = none ∧
    resolveCompleteCgroupPath none (some "/sys/fs/cgroup/cpu.stat".toList) = none := by
  exact ⟨rfl, rfl, rfl⟩

/-- Claim C8 as amended: only namespace, container name and label
selector have an environment fallback, and for them a non-empty flag
always wins; the wait duration and both cgroup path hints are taken from
the flag alone and their environment variables are never read. -/
theorem C8_env_fallback : ∀ (f : List Char) (envVal : Option (List Char)),
    (f ≠ [] → resolveNamespace (some f) envVal = some f ∧
              resolveContainerName (some f) envVal = some f ∧
              resolveLabelSelector (some f) envVal = some f) ∧
    (resolveNamespace none envVal = envVal ∧
     resolveContainerName none envVal = envVal ∧
     resolveLabelSelector none envVal = envVal) ∧
    (∀ w : Option Rat, resolveWaitSeconds w envVal = w) ∧
    (∀ p : Option (List Char),
      resolveCgroupPath p envVal = p ∧ resolveCompleteCgroupPath p envVal = p) := by
  intro f envVal
  refine ⟨?_, ⟨rfl, rfl, rfl⟩, fun w => rfl, fun p => ⟨rfl, rfl⟩⟩
  intro hf
  refine ⟨?_, ?_, ?_⟩ <;>
    simp only [resolveNamespace, resolveContainerName, resolveLabelSelector, orEnv, if_neg hf]

/-- Witness for C8_env_fallback: an explicit namespace flag overrides a
set environment variable. -/
theorem C8_env_fallback_witness :
    resolveNamespace (some "ns".toList) (some "other".toList) = some "ns".toList :=
  ((C8_env_fallback "ns".toList (some "other".toList)).1 (by decide)).1

/-- Claim C6: a zero periods delta in differential mode, and a zero
absolute period count in instantaneous mode, each take the zero-activity
branch (the Bool component, which is true exactly when the code logs that
it is setting throttling to zero) and report percentage 0; the guarded
division is never reached. -/
theorem C6_zero_periods : ∀ (i f : CpuStats) (nm : List Char),
    (f.nr_periods - i.nr_periods = 0 →
      computeThrottling true i f = (0, true) ∧
      (podResult true nm i f).throttling_percentage = 0) ∧
    (i.nr_periods = 0 →
      computeThrottling false i f = (0, true) ∧
      (podResult false nm i f).throttling_percentage = 0) := by
  intro i f nm
  constructor
  · intro h
    have hnot : ¬ (f.nr_periods - i.nr_periods > 0) := by omega
    constructor
    · simp [computeThrottling, hnot]
    · simp [podResult, computeThrottling, hnot]
  · intro h
    have hnot : ¬ (i.nr_periods > 0) := by omega
    constructor
    · simp [computeThrottling, hnot]
    · simp [podResult, computeThrottling, hnot]

/-- Witness for C6_zero_periods on the all-zero snapshots. -/
theorem C6_zero_periods_witness :
    computeThrottling true zeroStats zeroStats = (0, true) :=
  ((C6_zero_periods zeroStats zeroStats []).1 (by decide)).1

theorem podResult_rate_eq (wait : Bool) (nm : List Char) (i f : CpuStats) :
    (podResult wait nm i f).throttled_rate = (podResult wait nm i f).throttling_percentage :=
  rfl

theorem fleetLoop_success_rate (wait : Bool) :
    ∀ (pods : List PodEntry) (acc : List PodResult) (msg : List Char) (rs : List PodResult),
      (∀ r ∈ acc, r.throttled_rate = r.throttling_percentage) →
      fleetLoop wait pods acc = FleetResult.success msg rs →
      ∀ r ∈ rs, r.throttled_rate = r.throttling_percentage := by
  intro pods
  induction pods with
  | nil =>
    intro acc msg rs hacc heq
    simp only [fleetLoop, FleetResult.success.injEq] at heq
    obtain ⟨-, hrs⟩ := heq
    subst hrs
    exact hacc
  | cons e rest ih =>
    intro acc msg rs hacc heq
    cases he : e.2.1 with
    | error m =>
      rw [fleetLoop, he] at heq
      exact FleetResult.noConfusion heq
    | ok initial =>
      cases wait with
      | false =>
        rw [fleetLoop, he] at heq
        simp only [Bool.false_eq_true, if_false] at heq
        refine ih (acc ++ [podResult false e.1 initial initial]) msg rs ?_ heq
        intro r hr
        rcases List.mem_append.mp hr with h1 | h1
        · exact hacc r h1
        · rcases List.mem_singleton.mp h1 with rfl
          exact podResult_rate_eq false e.1 initial initial
      | true =>
        rw [fleetLoop, he] at heq
        simp only [if_true] at heq
        cases he2 : e.2.2 with
        | error m =>
          rw [he2] at heq
          exact FleetResult.noConfusion heq
        | ok final =>
          rw [he2] at heq
          refine ih (acc ++ [podResult true e.1 initial final]) msg rs ?_ heq
          intro r hr
          rcases List.mem_append.mp hr with h1 | h1
          · exact hacc r h1
          · rcases List.mem_singleton.mp h1 with rfl
            exact podResult_rate_eq true e.1 initial final

/-- Claim C9: in every successful run, every per-pod result carries the
same value in throttled_rate as in throttling_percentage, in both modes. -/
theorem C9_rate_equals_percentage : ∀ (wait : Bool) (pods : List PodEntry)
    (msg : List Char) (rs : List PodResult),
    fleetRun wait pods = FleetResult.success msg rs →
    ∀ r ∈ rs, r.throttled_rate = r.throttling_percentage := by
  intro wait pods msg rs heq r hr
  unfold fleetRun at heq
  by_cases hp : pods.isEmpty
  · rw [if_pos hp] at heq
    obtain ⟨-, hrs⟩ := FleetResult.success.inj heq
    subst hrs
    cases hr
  · rw [if_neg hp] at heq
    exact fleetLoop_success_rate wait pods [] msg rs (by simp) heq r hr

/-- Witness for C9_rate_equals_percentage: a one-pod instantaneous run. -/
theorem C9_rate_equals_percentage_witness :
    (podResult false "p".toList zeroStats zeroStats).throttled_rate =
      (podResult false "p".toList zeroStats zeroStats).throttling_percentage :=
  C9_rate_equals_percentage false [("p".toList, Except.ok zeroStats, Except.ok zeroStats)]
    ("CPU throttling analysis completed".toList)
    [podResult false "p".toList zeroStats zeroStats] rfl
    (podResult false "p".toList zeroStats zeroStats) (List.mem_singleton.mpr rfl)

theorem exists_split_first (c : Char) : ∀ (l : List Char), c ∈ l →
    ∃ a b, l = a ++ c :: b ∧ c ∉ a := by
  intro l
  induction l with
  | nil => intro h; cases h
  | cons x rest ih =>
    intro h
    by_cases hx : x = c
    · subst hx
      exact ⟨[], rest, rfl, by simp⟩
    · have hc : c ∈ rest := by
        rcases List.mem_cons.mp h with h1 | h1
        · exact absurd h1.symm hx
        · exact h1
      obtain ⟨a, b, hl, ha⟩ := ih hc
      refine ⟨x :: a, b, by rw [hl, List.cons_append], ?_⟩
      simp only [List.mem_cons]
      rintro (h1 | h1)
      · exact hx h1.symm
      · exact ha h1

theorem splitFirst_append (c : Char) : ∀ (a b : List Char), c ∉ a →
    splitFirst c (a ++ c :: b) = (a, b) := by
  intro a
  induction a with
  | nil => intro b _; simp [splitFirst]
  | cons x a' ih =>
    intro b ha
    have hx : ¬ (x = c) := by
      intro h
      exact ha (by rw [h]; exact List.mem_cons_self c a')
    have ha' : c ∉ a' := fun h => ha (List.mem_cons_of_mem x h)
    simp [splitFirst, hx, ih b ha']

theorem colonToSpace_append : ∀ (a b : List Char), ':' ∉ a →
    colonToSpace (a ++ ':' :: b) = a ++ ' ' :: b := by
  intro a
  induction a with
  | nil => intro b _; simp [colonToSpace]
  | cons x a' ih =>
    intro b ha
    have hx : ¬ (x = ':') := by
      intro h
      exact ha (by rw [h]; exact List.mem_cons_self ':' a')
    have ha' : ':' ∉ a' := fun h => ha (List.mem_cons_of_mem x h)
    simp [colonToSpace, hx, ih b ha']

/-- Claim C10: a line with no space but a colon is processed exactly like
its space-separated counterpart, namely the line with the first colon
replaced by a space: both split into the same stripped key and value. -/
theorem C10_colon_lines : ∀ (st : CpuStats × Bool) (line : Line),
    ' ' ∉ line → ':' ∈ line →
    processLine st line = processLine st (colonToSpace line) := by
  intro st line hsp hco
  obtain ⟨a, b, rfl, hca⟩ := exists_split_first ':' line hco
  have hsa : ' ' ∉ a := fun h => hsp (List.mem_append.mpr (Or.inl h))
  have hsco : ':' ∈ a ++ ':' :: b := List.mem_append.mpr (Or.inr (List.mem_cons_self ':' b))
  have hspace2 : ' ' ∈ a ++ ' ' :: b := List.mem_append.mpr (Or.inr (List.mem_cons_self ' ' b))
  rw [colonToSpace_append a b hca]
  have h1 : lineKV (a ++ ':' :: b) = some (pyStrip a, pyStrip b) := by
    simp only [lineKV]
    rw [if_neg (fun hand => hand.1 hsco), if_neg hsp, splitFirst_append ':' a b hca]
  have h2 : lineKV (a ++ ' ' :: b) = some (pyStrip a, pyStrip b) := by
    simp only [lineKV]
    rw [if_neg (fun hand => hand.2 hspace2), if_pos hspace2, splitFirst_append ' ' a b hsa]
  simp only [processLine, h1, h2]

/-- Witness for C10_colon_lines on the line nr_periods:7. -/
theorem C10_colon_lines_witness :
    processLine (zeroStats, false) ("nr_periods:7".toList) =
      processLine (zeroStats, false) (colonToSpace ("nr_periods:7".toList)) :=
  C10_colon_lines (zeroStats, false) ("nr_periods:7".toList) (by decide) (by decide)

/-- Claim C5 counterexample: a throttled_time line is not recognized; the
throttled-time counter stays 0 rather than taking the value 999, so the
legacy alias does not populate the same counter as throttled_usec. -/
theorem C5_counterexample :
    (parse_cpu_stats [] c5lines).map CpuStats.throttled_time = Except.ok 0 ∧
    (parse_cpu_stats [] c5lines).map CpuStats.throttled_time ≠ Except.ok 999 := by
  constructor
  · decide
  · decide

/-- Claim C5 as amended: the parser recognizes exactly the keys
nr_periods, nr_throttled and throttled_usec; a line whose key is anything
else, including the legacy alias throttled_time, leaves the parser state
unchanged and raises no error, while a recognized key sets exactly its
counter (or errors when its value is not an integer). -/
theorem C5_recognized_keys : ∀ (st : CpuStats × Bool) (line : Line) (k v : List Char),
    lineKV line = some (k, v) →
    ((k = npKey → ∀ n, pyInt v = some n →
        processLine st line = Except.ok ({ st.1 with nr_periods := n }, true)) ∧
     (k = ntKey → ∀ n, pyInt v = some n →
        processLine st line = Except.ok ({ st.1 with nr_throttled := n }, true)) ∧
     (k = tuKey → ∀ n, pyInt v = some n →
        processLine st line = Except.ok ({ st.1 with throttled_time := n }, true)) ∧
     ((k = npKey ∨ k = ntKey ∨ k = tuKey) → pyInt v = none →
        processLine st line = Except.error (ParseErr.invalidValue k v)) ∧
     (k ≠ npKey → k ≠ ntKey → k ≠ tuKey → processLine st line = Except.ok st)) := by
  intro st line k v hkv
  have hpl : processLine st line = applyKV st k v := by simp only [processLine, hkv]
  have hnp : ntKey ≠ npKey := by decide
  have htp : tuKey ≠ npKey := by decide
  have htn : tuKey ≠ ntKey := by decide
  refine ⟨?_, ?_, ?_, ?_, ?_⟩
  · intro hk n hn
    subst hk
    simp [hpl, applyKV, hn]
  · intro hk n hn
    subst hk
    simp [hpl, applyKV, hn, hnp]
  · intro hk n hn
    subst hk
    simp [hpl, applyKV, hn, htp, htn]
  · intro hk hn
    rcases hk with hk | hk | hk
    · subst hk
      simp [hpl, applyKV, hn]
    · subst hk
      simp [hpl, applyKV, hn, hnp]
    · subst hk
      simp [hpl, applyKV, hn, htp, htn]
  · intro h1 h2 h3
    simp [hpl, applyKV, h1, h2, h3]

/-- Witness for C5_recognized_keys: the throttled_time line of the
counterexample leaves the initial state untouched. -/
theorem C5_recognized_keys_witness :
    processLine (zeroStats, false) ("throttled_time 999".toList) =
      Except.ok (zeroStats, false) :=
  (C5_recognized_keys (zeroStats, false) ("throttled_time 999".toList)
      "throttled_time".toList "999".toList (by decide)).2.2.2.2
    (by decide) (by decide) (by decide)

/-- The three recognized counter fields. -/
inductive StatField where
  | periods
  | throttled
  | ttime
deriving DecidableEq, Repr

/-- The recognized key naming each field. -/
def keyOfField : StatField → List Char
  | StatField.periods => npKey
  | StatField.throttled => ntKey
  | StatField.ttime => tuKey

/-- The field-and-value action a line performs on the counters, when it
performs one. -/
def stepAction (line : Line) : Option (StatField × Int) :=
  match lineKV line with
  | none => none
  | some kv =>
    match pyInt kv.2 with
    | none => none
    | some n =>
      if kv.1 = npKey then some (StatField.periods, n)
      else if kv.1 = ntKey then some (StatField.throttled, n)
      else if kv.1 = tuKey then some (StatField.ttime, n)
      else none

/-- Application of such an action to the parser state. -/
def applyAction (st : CpuStats × Bool) : Option (StatField × Int) → CpuStats × Bool
  | none => st
  | some (StatField.periods, n) => ({ st.1 with nr_periods := n }, true)
  | some (StatField.throttled, n) => ({ st.1 with nr_throttled := n }, true)
  | some (StatField.ttime, n) => ({ st.1 with throttled_time := n }, true)

/-- Two lines are key-compatible when they do not both carry the same
recognized key. -/
def distinctKeysB (a b : Line) : Bool :=
  match lineRecKey a, lineRecKey b with
  | some ka, some kb => if ka = kb then false else true
  | _, _ => true

theorem pureStep_eq_applyAction (st : CpuStats × Bool) (line : Line) :
    pureStep st line = applyAction st (stepAction line) := by
  have hnp : ¬ (ntKey = npKey) := by decide
  have htp : ¬ (tuKey = npKey) := by decide
  have htn : ¬ (tuKey = ntKey) := by decide
  cases hkv : lineKV line with
  | none => simp [pureStep, stepAction, applyAction, hkv]
  | some kv =>
    cases hv : pyInt kv.2 with
    | none => simp [pureStep, stepAction, applyAction, hkv, hv]
    | some n =>
      by_cases h1 : kv.1 = npKey
      · simp [pureStep, stepAction, applyAction, hkv, hv, h1]
      · by_cases h2 : kv.1 = ntKey
        · simp [pureStep, stepAction, applyAction, hkv, hv, h1, h2, hnp]
        · by_cases h3 : kv.1 = tuKey
          · simp [pureStep, stepAction, applyAction, hkv, hv, h1, h2, h3, htp, htn]
          · simp [pureStep, stepAction, applyAction, hkv, hv, h1, h2, h3]

theorem processLine_ok_of_lineOk (line : Line) (h : lineOk line = true) (st : CpuStats × Bool) :
    processLine st line = Except.ok (pureStep st line) := by
  have hnp : ¬ (ntKey = npKey) := by decide
  have htp : ¬ (tuKey = npKey) := by decide
  have htn : ¬ (tuKey = ntKey) := by decide
  cases hkv : lineKV line with
  | none => simp [processLine, pureStep, hkv]
  | some kv =>
    by_cases hrec : kv.1 = npKey ∨ kv.1 = ntKey ∨ kv.1 = tuKey
    · have hsome : (pyInt kv.2).isSome = true := by
        have h2 := h
        simp only [lineOk, hkv] at h2
        rwa [if_pos hrec] at h2
      obtain ⟨n, hn⟩ := Option.isSome_iff_exists.mp hsome
      rcases hrec with h1 | h1 | h1
      · simp [processLine, pureStep, applyKV, hkv, hn, h1]
      · simp [processLine, pureStep, applyKV, hkv, hn, h1, hnp]
      · simp [processLine, pureStep, applyKV, hkv, hn, h1, htp, htn]
    · push_neg at hrec
      obtain ⟨h1, h2, h3⟩ := hrec
      cases hv : pyInt kv.2 with
      | none => simp [processLine, pureStep, applyKV, hkv, hv, h1, h2, h3]
      | some n => simp [processLine, pureStep, applyKV, hkv, hv, h1, h2, h3]

theorem parseLines_ok_of_all : ∀ (lines : List Line),
    (∀ l ∈ lines, lineOk l = true) →
    ∀ st, parseLines st lines = Except.ok (lines.foldl pureStep st) := by
  intro lines
  induction lines with
  | nil => intro _ st; rfl
  | cons l rest ih =>
    intro h st
    have hl : lineOk l = true := h l (List.mem_cons_self l rest)
    have hrest : ∀ x ∈ rest, lineOk x = true := fun x hx => h x (List.mem_cons_of_mem l hx)
    simp only [parseLines, processLine_ok_of_lineOk l hl st, List.foldl_cons]
    exact ih hrest (pureStep st l)

theorem stepAction_field (line : Line) (fa : StatField) (n : Int)
    (h : stepAction line = some (fa, n)) : lineRecKey line = some (keyOfField fa) := by
  have hnp : ¬ (ntKey = npKey) := by decide
  have htp : ¬ (tuKey = npKey) := by decide
  have htn : ¬ (tuKey = ntKey) := by decide
  cases hkv : lineKV line with
  | none => simp [stepAction, hkv] at h
  | some kv =>
    cases hv : pyInt kv.2 with
    | none => simp [stepAction, hkv, hv] at h
    | some m =>
      by_cases h1 : kv.1 = npKey
      · simp [stepAction, hkv, hv, h1] at h
        obtain ⟨hf, -⟩ := h
        subst hf
        simp [lineRecKey, hkv, h1, keyOfField]
      · by_cases h2 : kv.1 = ntKey
        · simp [stepAction, hkv, hv, h1, h2, hnp] at h
          obtain ⟨hf, -⟩ := h
          subst hf
          simp [lineRecKey, hkv, h2, keyOfField]
        · by_cases h3 : kv.1 = tuKey
          · simp [stepAction, hkv, hv, h1, h2, h3, htp, htn] at h
            obtain ⟨hf, -⟩ := h
            subst hf
            simp [lineRecKey, hkv, h3, keyOfField]
          · simp [stepAction, hkv, hv, h1, h2, h3] at h

theorem distinctKeysB_symm : ∀ (a b : Line), distinctKeysB a b = true → distinctKeysB b a = true := by
  intro a b h
  cases ha : lineRecKey a with
  | none =>
    cases hb : lineRecKey b with
    | none => simp [distinctKeysB, ha, hb]
    | some kb => simp [distinctKeysB, ha, hb]
  | some ka =>
    cases hb : lineRecKey b with
    | none => simp [distinctKeysB, ha, hb]
    | some kb =>
      simp only [distinctKeysB, ha, hb] at h ⊢
      by_cases hk : ka = kb
      · subst hk
        simp at h
      · rw [if_neg (fun hh => hk hh.symm)]

theorem applyAction_comm (st : CpuStats × Bool) (x y : Option (StatField × Int))
    (h : ∀ fa na fb nb, x = some (fa, na) → y = some (fb, nb) → fa ≠ fb) :
    applyAction (applyAction st x) y = applyAction (applyAction st y) x := by
  rcases x with - | ⟨fa, na⟩
  · rfl
  · rcases y with - | ⟨fb, nb⟩
    · rfl
    · have hne : fa ≠ fb := h fa na fb nb rfl rfl
      cases fa <;> cases fb <;> first
        | exact absurd rfl hne
        | rfl

theorem pureStep_comm (a b : Line) (hab : distinctKeysB a b = true) (st : CpuStats × Bool) :
    pureStep (pureStep st a) b = pureStep (pureStep st b) a := by
  simp only [pureStep_eq_applyAction]
  apply applyAction_comm
  intro fa na fb nb hx hy
  have hka := stepAction_field a fa na hx
  have hkb := stepAction_field b fb nb hy
  intro hf
  subst hf
  simp [distinctKeysB, hka, hkb] at hab

/-- Claim C7 counterexample: permuting two duplicate nr_periods lines
changes the parsed nr_periods counter from 2 to 1 (the last occurrence
wins), so parsing is not order-independent on every raw text. -/
theorem C7_counterexample :
    (["nr_periods 1".toList, "nr_periods 2".toList] : List Line).Perm
      ["nr_periods 2".toList, "nr_periods 1".toList] ∧
    (parse_cpu_stats [] ["nr_periods 1".toList, "nr_periods 2".toList]).map
        CpuStats.nr_periods = Except.ok 2 ∧
    (parse_cpu_stats [] ["nr_periods 2".toList, "nr_periods 1".toList]).map
        CpuStats.nr_periods = Except.ok 1 ∧
    (Except.ok (2 : Int) : Except ParseErr Int) ≠ Except.ok 1 := by
  refine ⟨by decide, by decide, by decide, by decide⟩

/-- Claim C7 as amended: parsing is order-independent for raw texts in
which every line carrying a recognized key has an integer value and no
two distinct lines carry the same recognized key; permuting such lines
yields an identical parse result. -/
theorem C7_perm_invariant : ∀ (path : List Char) (l1 l2 : List Line),
    l1.Perm l2 →
    (∀ l ∈ l1, lineOk l = true) →
    l1.Pairwise (fun a b => distinctKeysB a b = true) →
    parse_cpu_stats path l1 = parse_cpu_stats path l2 := by
  intro path l1 l2 hp hok hpw
  have hok2 : ∀ l ∈ l2, lineOk l = true := fun l hl => hok l (hp.mem_iff.mpr hl)
  have hsymm : Symmetric (fun a b : Line => distinctKeysB a b = true) :=
    fun a b h => distinctKeysB_symm a b h
  have hcomm : ∀ x ∈ l1, ∀ y ∈ l1, ∀ z : CpuStats × Bool,
      pureStep (pureStep z x) y = pureStep (pureStep z y) x := by
    intro x hx y hy z
    by_cases hxy : x = y
    · subst hxy; rfl
    · exact pureStep_comm x y (hpw.forall hsymm hx hy hxy) z
  unfold parse_cpu_stats
  rw [parseLines_ok_of_all l1 hok, parseLines_ok_of_all l2 hok2, hp.foldl_eq' hcomm]

/-- Witness for C7_perm_invariant: swapping a nr_periods line with a
nr_throttled line leaves the parse result unchanged. -/
theorem C7_perm_invariant_witness :
    parse_cpu_stats [] ["nr_periods 1".toList, "nr_throttled 2".toList] =
      parse_cpu_stats [] ["nr_throttled 2".toList, "nr_periods 1".toList] :=
  C7_perm_invariant [] ["nr_periods 1".toList, "nr_throttled 2".toList]
    ["nr_throttled 2".toList, "nr_periods 1".toList]
    (by decide) (by decide) (by decide)
